import Mathlib

/-!
Verification of the PicoClaw agent loop (`pkg/agent/loop.go`) and its
database provider (`pkg/database/provider.go`) against the natural-language
specification.  The Go code is shallowly embedded: pure helpers become Lean
functions, the stateful agent turn becomes explicit state passing over a
`AgentState` record, external collaborators (LLM providers, tools) become
oracle parameters, and wall-clock time becomes an explicit `Clock` record.
Float confidences from the Go source are scaled by 100 to naturals
(0.95 becomes 95); byte lengths use `String.utf8ByteSize`, matching Go's
`len` on strings.  Go's case-insensitive regex matching folds Unicode case
while `String.toLower` here folds ASCII; all properties below are stated on
inputs where the two agree.
-/

namespace PicoClaw

/-! ## String helpers (Go `strings.Contains`) -/

/-- Whether `p` is a prefix of `s`, on character lists. -/
def listHasPrefix : List Char → List Char → Bool
  | _, [] => true
  | [], _ :: _ => false
  | c :: cs, p :: ps => c == p && listHasPrefix cs ps

/-- Whether `p` occurs as a contiguous sublist of `s`. -/
def listContainsSub : List Char → List Char → Bool
  | [], p => p.isEmpty
  | c :: cs, p => listHasPrefix (c :: cs) p || listContainsSub cs p

/-- Embedding of Go `strings.Contains s p`. -/
def strContains (s p : String) : Bool :=
  listContainsSub s.toList p.toList

/-! ## ReasoningEngine (`loop.go` lines 72-249)

Each `regexp.MustCompile` pattern in `NewReasoningEngine` is an alternation
of start-anchored branches; a branch of the form `^w$` matches the whole
string and a branch `^w` matches any string starting with `w`, both
case-insensitively.  Bracket classes such as `[aá]` are expanded into the
alternative spellings.  `confidence` is the Go float64 scaled by 100. -/

structure PatternMatcher where
  matchFn : String → Bool
  ptype : String
  confidence : Nat

/-- Lower-casing character by character (Go `(?i)` folds full Unicode case
while `Char.toLower` folds ASCII; the two agree on the inputs treated
here). -/
def lowerString (s : String) : String :=
  ⟨s.data.map Char.toLower⟩

/-- Case-insensitive whole-string match against any alternative. -/
def eqAny (alts : List String) (msg : String) : Bool :=
  alts.any (fun a => lowerString msg == a)

/-- Case-insensitive prefix match against any alternative. -/
def startAny (alts : List String) (msg : String) : Bool :=
  alts.any (fun a => listHasPrefix (lowerString msg).toList a.toList)

/-- The ordered matcher list of `NewReasoningEngine` (`loop.go` 170-181). -/
def patternMatchers : List PatternMatcher :=
  [⟨eqAny ["oi", "ola", "olá", "eai", "hey", "hi", "hello"], "greeting", 95⟩,
   ⟨eqAny ["tchau", "adeus", "ate logo", "até logo", "bye", "see ya"], "farewell", 95⟩,
   ⟨startAny ["obrigado", "obrigada", "valeu", "thanks", "thank you"], "gratitude", 90⟩,
   ⟨eqAny ["bom dia", "boa tarde", "boa noite"], "time_greeting", 95⟩,
   ⟨startAny ["como voce esta", "como voce está", "como você esta", "como você está",
              "tudo bem", "how are you"], "how_are_you", 90⟩,
   ⟨startAny ["quem e voce", "quem e você", "quem é voce", "quem é você",
              "o que e voce", "o que e você", "o que é voce", "o que é você",
              "what are you"], "who_are_you", 90⟩,
   ⟨startAny ["ajuda", "help", "socorro", "me ajude"], "help_request", 85⟩,
   ⟨startAny ["hora", "que horas", "time"], "time_request", 85⟩,
   ⟨startAny ["data", "que dia", "date"], "date_request", 85⟩]

/-- First matching matcher wins, as in the Go `for` loop of `Analyze`. -/
def findMatcher : List PatternMatcher → String → String × Nat
  | [], _ => ("complex", 50)
  | m :: rest, msg => if m.matchFn msg then (m.ptype, m.confidence) else findMatcher rest msg

/-- Embedding of `ReasoningEngine.Analyze` (`loop.go` 237-249) with the
engine enabled, returning `(messageType, confidence)`. -/
def analyze (message : String) : String × Nat :=
  findMatcher patternMatchers message

/-! ## ResponseCache (`loop.go` 94-303)

The Go map is modelled as an association list; map assignment replaces an
existing binding in place or appends a new one.  Time is in seconds, so the
30-minute TTL of `NewResponseCache` is 1800. -/

structure CacheEntry where
  response : String
  timestamp : Nat
  hitCount : Nat
deriving DecidableEq

structure ResponseCache where
  entries : List (String × CacheEntry)
  maxSize : Nat
  ttl : Nat
deriving DecidableEq

/-- Embedding of `NewResponseCache` (`loop.go` 252-258). -/
def newResponseCache : ResponseCache :=
  { entries := [], maxSize := 100, ttl := 1800 }

/-- Go map assignment `entries[key] = v`. -/
def insertEntry : List (String × CacheEntry) → String → CacheEntry → List (String × CacheEntry)
  | [], k, v => [(k, v)]
  | (k0, v0) :: rest, k, v =>
      if k0 == k then (k, v) :: rest else (k0, v0) :: insertEntry rest k v

/-- Go map lookup `entries[key]`. -/
def findEntry : List (String × CacheEntry) → String → Option CacheEntry
  | [], _ => none
  | (k0, v0) :: rest, k => if k0 == k then some v0 else findEntry rest k

/-- Embedding of `ResponseCache.Get` (`loop.go` 261-276): a present entry
whose age exceeds the TTL reports a miss. -/
def cacheGet (now : Nat) (rc : ResponseCache) (key : String) : Option String :=
  match findEntry rc.entries key with
  | none => none
  | some e => if now - e.timestamp > rc.ttl then none else some e.response

/-- Embedding of `ResponseCache.cleanup` (`loop.go` 296-303): despite its
comment promising to drop expired or least-used entries, the body deletes
only the expired ones. -/
def cacheCleanup (now : Nat) (rc : ResponseCache) : ResponseCache :=
  { rc with entries := rc.entries.filter (fun e => !(now - e.2.timestamp > rc.ttl)) }

/-- Embedding of `ResponseCache.Set` (`loop.go` 279-293). -/
def cacheSet (now : Nat) (rc : ResponseCache) (key response : String) : ResponseCache :=
  let rc1 := if rc.entries.length ≥ rc.maxSize then cacheCleanup now rc else rc
  { rc1 with entries := insertEntry rc1.entries key ⟨response, now, 1⟩ }

/-! ## Personality (`loop.go` 109-428)

Wall-clock reads are factored into an explicit `Clock`; generators take the
clock as argument.  `weekday` is 0 for Sunday as in Go `time.Weekday`. -/

structure Clock where
  hour : Nat
  minute : Nat
  sec : Nat
  day : Nat
  month : Nat
  year : Nat
  weekday : Nat
  now : Nat
deriving DecidableEq

structure Personality where
  name : String
  tone : String
  emojiStyle : String
  useEmojis : Bool
  greeting : String
  farewell : String
deriving DecidableEq

/-- Embedding of `NewPersonality` (`loop.go` 306-315). -/
def newPersonality : Personality :=
  { name := "Pico", tone := "friendly", emojiStyle := "moderate", useEmojis := true,
    greeting := "Olá! 👋", farewell := "Até logo! 👋" }

/-- Selection `xs[sec % 3]` from a three-element Go slice. -/
def pick3 (a b c : String) (n : Nat) : String :=
  match n % 3 with
  | 0 => a
  | 1 => b
  | _ => c

/-- Two-digit zero padding used by Go time layouts `15`, `04`, `02`, `01`. -/
def pad2 (n : Nat) : String :=
  if n < 10 then "0" ++ toString n else toString n

/-- Embedding of `Personality.GenerateGreeting` (`loop.go` 318-341). -/
def generateGreeting (p : Personality) (c : Clock) : String :=
  let greeting :=
    if 5 ≤ c.hour ∧ c.hour < 12 then "Bom dia"
    else if 12 ≤ c.hour ∧ c.hour < 18 then "Boa tarde"
    else "Boa noite"
  if p.useEmojis then
    pick3 (greeting ++ "! ☀️ Como posso ajudar você hoje?")
          (greeting ++ "! 🌟 O que posso fazer por você?")
          ("Oi! " ++ greeting ++ "! 👋 Pronto para ajudar!") c.sec
  else greeting ++ "! Como posso ajudar?"

/-- Embedding of `Personality.GenerateFarewell` (`loop.go` 344-354). -/
def generateFarewell (p : Personality) (c : Clock) : String :=
  if p.useEmojis then
    pick3 "Até logo! 👋 Foi um prazer conversar com você!"
          "Tchau! 🌟 Volte sempre que precisar!"
          "Até mais! 😊 Estou aqui quando precisar!" c.sec
  else "Até logo! Volte sempre."

/-- Embedding of `Personality.GenerateGratitudeResponse` (`loop.go` 357-367). -/
def generateGratitudeResponse (p : Personality) (c : Clock) : String :=
  if p.useEmojis then
    pick3 "De nada! 😊 Fico feliz em poder ajudar!"
          "Por nada! 🌟 É um prazer ajudar!"
          "Disponha sempre! 👍 Que bom que pude ser útil!" c.sec
  else "De nada! Fico feliz em ajudar."

/-- Embedding of `Personality.GenerateHowAreYouResponse` (`loop.go` 370-375). -/
def generateHowAreYouResponse (p : Personality) : String :=
  if p.useEmojis then
    "Estou ótimo! 🤖 Funcionando a todo vapor e pronto para ajudar! E você, como está?"
  else "Estou bem, obrigado por perguntar! Pronto para ajudar. E você?"

/-- Embedding of `Personality.GenerateWhoAreYouResponse` (`loop.go` 378-383). -/
def generateWhoAreYouResponse (p : Personality) : String :=
  if p.useEmojis then
    "Sou " ++ p.name ++ "! 🦞🤖 Um assistente de IA criado para ajudar você com diversas tarefas. Posso responder perguntas, ajudar com código, pesquisar na web e muito mais! Como posso ajudar?"
  else "Sou " ++ p.name ++ ", um assistente de IA pronto para ajudar você com diversas tarefas."

/-- Embedding of `Personality.GenerateTimeResponse` (`loop.go` 386-393);
`now.Format("15:04")` becomes zero-padded hour and minute. -/
def generateTimeResponse (p : Personality) (c : Clock) : String :=
  let timeStr := pad2 c.hour ++ ":" ++ pad2 c.minute
  if p.useEmojis then "São " ++ timeStr ++ " ⏰ (horário local)"
  else "São " ++ timeStr ++ " (horário local)"

/-- Weekday names indexed by Go `time.Weekday` (0 = Sunday), `loop.go` 399. -/
def weekdayNames : List String :=
  ["Domingo", "Segunda-feira", "Terça-feira", "Quarta-feira", "Quinta-feira",
   "Sexta-feira", "Sábado"]

/-- Embedding of `Personality.GenerateDateResponse` (`loop.go` 396-405). -/
def generateDateResponse (p : Personality) (c : Clock) : String :=
  let dateStr := pad2 c.day ++ "/" ++ pad2 c.month ++ "/" ++ toString c.year
  let weekday := weekdayNames.getD c.weekday ""
  if p.useEmojis then "Hoje é " ++ weekday ++ ", " ++ dateStr ++ " 📅"
  else "Hoje é " ++ weekday ++ ", " ++ dateStr

/-- Embedding of `Personality.GenerateHelpResponse` (`loop.go` 408-428). -/
def generateHelpResponse (p : Personality) : String :=
  if p.useEmojis then
    "Claro! 🆘 Aqui estão algumas coisas que posso fazer:\n\n💬 *Conversar* - Bate-papo natural sobre qualquer assunto\n🔍 *Pesquisar* - Buscar informações na web\n💻 *Código* - Ajuda com programação em várias linguagens\n📁 *Arquivos* - Ler, escrever e editar arquivos\n⚙️ *Ferramentas* - Usar diversas ferramentas disponíveis\n\nO que você gostaria de fazer? 😊"
  else
    "Posso ajudar com:\n- Conversas e perguntas gerais\n- Pesquisa na web\n- Programação e código\n- Manipulação de arquivos\n- Uso de ferramentas diversas\n\nComo posso ajudar?"

/-- The quick-response `switch messageType` of `runAgentLoop`
(`loop.go` 712-730).  The default branch — reached among the catalog
intents only by `time_greeting` — leaves the response empty. -/
def quickResponseFor (p : Personality) (c : Clock) (messageType : String) : String :=
  if messageType == "greeting" then generateGreeting p c
  else if messageType == "farewell" then generateFarewell p c
  else if messageType == "gratitude" then generateGratitudeResponse p c
  else if messageType == "how_are_you" then generateHowAreYouResponse p
  else if messageType == "who_are_you" then generateWhoAreYouResponse p
  else if messageType == "time_request" then generateTimeResponse p c
  else if messageType == "date_request" then generateDateResponse p c
  else if messageType == "help_request" then generateHelpResponse p
  else ""

/-! ## Messages, tool calls and sessions

`providers.Message` is flattened: a tool call's `Function` record is
inlined as `name`/`arguments` next to its `id` and `type`.  JSON argument
objects are abstracted as the string Go's `json.Marshal` would produce. -/

structure MsgToolCall where
  id : String
  ctype : String
  name : String
  arguments : String
deriving DecidableEq

structure Msg where
  role : String
  content : String
  toolCalls : List MsgToolCall
  toolCallID : String
deriving DecidableEq

/-- A plain history entry, as produced by `SessionManager.AddMessage`. -/
def mkMsg (role content : String) : Msg :=
  ⟨role, content, [], ""⟩

structure LLMToolCall where
  id : String
  name : String
  arguments : String
deriving DecidableEq

structure LLMResponse where
  content : String
  toolCalls : List LLMToolCall
deriving DecidableEq

structure ToolResult where
  forLLM : String
  forUser : String
  silent : Bool
  err : Option String
deriving DecidableEq

structure OutboundMessage where
  channel : String
  chatID : String
  content : String
deriving DecidableEq

structure SessionData where
  history : List Msg
  summary : String
deriving DecidableEq

/-- Modelled from the spec: `pkg/session.SessionManager` is not under the
sources; spec section 4.2 specifies a map from session key to session with
`add_message` appending a history entry. -/
def addMessage (sessions : String → SessionData) (key role content : String) :
    String → SessionData :=
  fun k =>
    if k == key then
      { history := (sessions key).history ++ [mkMsg role content],
        summary := (sessions key).summary }
    else sessions k

/-- Modelled from the spec: spec section 4.2 `add_full_message` appends the
given entry (used for assistant tool-call and tool-result messages). -/
def addFullMessage (sessions : String → SessionData) (key : String) (m : Msg) :
    String → SessionData :=
  fun k =>
    if k == key then
      { history := (sessions key).history ++ [m], summary := (sessions key).summary }
    else sessions k

/-- Modelled from the spec: spec section 4.2 `truncate_history(k, keep_last_n)`
keeps only the last `n` entries (section 4.9: "truncate history to the kept
suffix (4 entries)"). -/
def truncateHistory (sessions : String → SessionData) (key : String) (n : Nat) :
    String → SessionData :=
  fun k =>
    if k == key then
      { history := (sessions key).history.drop ((sessions key).history.length - n),
        summary := (sessions key).summary }
    else sessions k

/-- Modelled from the spec: spec section 4.2 `set_summary`. -/
def setSummary (sessions : String → SessionData) (key s : String) :
    String → SessionData :=
  fun k =>
    if k == key then { history := (sessions key).history, summary := s }
    else sessions k

/-! ## Agent loop configuration and state (`loop.go` 40-70, 462-479) -/

structure ProcessOptions where
  sessionKey : String
  channel : String
  chatID : String
  userMessage : String
  defaultResponse : String
  enableSummary : Bool
  sendResponse : Bool
  noHistory : Bool
deriving DecidableEq

structure AgentConfig where
  contextWindow : Nat
  maxIterations : Nat
deriving DecidableEq

/-- The in-memory state the turn mutates: the session store and the
response cache.  The database provider is `nil` as in `NewAgentLoop`, so
`loadSessionFromDB` returns nothing and `saveMessageToDB`/`saveSessionToDB`
are no-ops. -/
structure AgentState where
  sessions : String → SessionData
  cache : ResponseCache

/-- External world: per-call provider results in failover order, and the
tool registry's `ExecuteWithContext` keyed by tool name and arguments. -/
structure Env where
  chat : List Msg → List (Except String LLMResponse)
  execTool : String → String → ToolResult

/-- Modelled from the spec: `utils.HashString` is not under the sources;
the spec requires only a deterministic fingerprint of the message
("intent + \":\" + hash(user_message)"), so the message itself serves. -/
def hashString (s : String) : String := s

/-- Modelled from the spec: `ContextBuilder.BuildMessages` is not under the
sources; spec section 4.8 step 5 builds "[system prompt with summary +
workspace context, ...history, user]". -/
def buildMessages (history : List Msg) (summary userMessage : String) : List Msg :=
  mkMsg "system" ("SYSTEM PROMPT\nSummary: " ++ summary) :: history ++ [mkMsg "user" userMessage]

/-- Whether a session key is a heartbeat key (`strings.HasPrefix`,
`loop.go` 1089). -/
def isHeartbeatKey (k : String) : Bool :=
  listHasPrefix k.toList "heartbeat:".toList

/-- Embedding of `AgentLoop.estimateTokens` (`loop.go` 1282-1288); Go `len`
on a string counts bytes. -/
def estimateTokens (messages : List Msg) : Nat :=
  messages.foldl (fun total m => total + m.content.utf8ByteSize / 4) 0

/-- The trigger condition of `maybeSummarize` (`loop.go` 1088-1097). -/
def maybeSummarizeCondition (al : AgentConfig) (history : List Msg) (key : String) : Bool :=
  !isHeartbeatKey key &&
    (history.length > 20 || estimateTokens history > al.contextWindow * 75 / 100)

/-! ## Provider failover (`loop.go` 933-961) -/

/-- The failover `for i, provider := range al.providers` loop: starting
from `response, err = nil, nil`, each provider overwrites both; the loop
breaks on the first success, so the final outcome is the first success if
one exists, otherwise the last provider's error.  An empty chain leaves
both `nil` (`none` here); the Go code would then dereference a nil
response. -/
def tryChat : List (Except String LLMResponse) → Option (Except String LLMResponse)
  | [] => none
  | r :: rs =>
    match r, rs with
    | .ok _, _ => some r
    | .error _, [] => some r
    | .error _, r2 :: rs2 => tryChat (r2 :: rs2)

/-! ## LLM iteration loop (`loop.go` 904-1066) -/

structure IterOut where
  result : Except String String
  sessions : String → SessionData
  outbound : List OutboundMessage
  usedLLM : Bool

/-- The `for _, tc := range response.ToolCalls` body (`loop.go` 1010-1062):
execute the tool, publish `ForUser` when not silent and `SendResponse` is
set, and append the tool-role message to the transcript and (unless
`NoHistory`) the session. -/
def execToolCalls (env : Env) (opts : ProcessOptions) :
    List LLMToolCall → List Msg → (String → SessionData) → List OutboundMessage →
    List Msg × (String → SessionData) × List OutboundMessage
  | [], messages, sessions, outbound => (messages, sessions, outbound)
  | tc :: rest, messages, sessions, outbound =>
    let tr := env.execTool tc.name tc.arguments
    let outbound1 :=
      if !tr.silent && tr.forUser != "" && opts.sendResponse then
        outbound ++ [⟨opts.channel, opts.chatID, tr.forUser⟩]
      else outbound
    let contentForLLM :=
      if tr.forLLM == "" && tr.err.isSome then tr.err.getD "" else tr.forLLM
    let toolMsg : Msg := ⟨"tool", contentForLLM, [], tc.id⟩
    let sessions1 :=
      if opts.noHistory then sessions else addFullMessage sessions opts.sessionKey toolMsg
    execToolCalls env opts rest (messages ++ [toolMsg]) sessions1 outbound1

/-- The assistant message rebuilt from an LLM response with tool calls
(`loop.go` 987-1001). -/
def mkAssistantMsg (resp : LLMResponse) : Msg :=
  { role := "assistant", content := resp.content,
    toolCalls := resp.toolCalls.map (fun tc => ⟨tc.id, "function", tc.name, tc.arguments⟩),
    toolCallID := "" }

/-- Embedding of the `for iteration < al.maxIterations` loop of
`runLLMIteration`, with remaining iterations as fuel.  Exhausting the fuel
returns the initial empty `finalContent`. -/
def runLLMIterationAux (env : Env) (opts : ProcessOptions) :
    Nat → List Msg → (String → SessionData) → List OutboundMessage → Bool → IterOut
  | 0, _, sessions, outbound, used => ⟨.ok "", sessions, outbound, used⟩
  | fuel + 1, messages, sessions, outbound, _ =>
    match tryChat (env.chat messages) with
    | none =>
      -- Empty provider chain: the Go code dereferences a nil response;
      -- modelled as a failing turn.
      ⟨.error "LLM call failed: nil response", sessions, outbound, true⟩
    | some (.error e) => ⟨.error ("LLM call failed: " ++ e), sessions, outbound, true⟩
    | some (.ok resp) =>
      if resp.toolCalls.isEmpty then ⟨.ok resp.content, sessions, outbound, true⟩
      else
        let assistantMsg := mkAssistantMsg resp
        let messages1 := messages ++ [assistantMsg]
        let sessions1 :=
          if opts.noHistory then sessions
          else addFullMessage sessions opts.sessionKey assistantMsg
        let r := execToolCalls env opts resp.toolCalls messages1 sessions1 outbound
        runLLMIterationAux env opts fuel r.1 r.2.1 r.2.2 true

/-- Embedding of `AgentLoop.runLLMIteration` (`loop.go` 906-1066). -/
def runLLMIteration (env : Env) (opts : ProcessOptions) (maxIterations : Nat)
    (messages : List Msg) (sessions : String → SessionData) : IterOut :=
  runLLMIterationAux env opts maxIterations messages sessions [] false

/-! ## Tool-call leak guard (`loop.go` 1291-1318) -/

/-- The pattern list of `isToolCallFormat`. -/
def toolCallPatterns : List String :=
  ["(message=\x7b", "(web_fetch=\x7b", "(search=\x7b", "(exec=\x7b",
   "(read_file=\x7b", "(write_file=\x7b", "(list_dir=\x7b", "(spawn=\x7b",
   "(subagent=\x7b", "(append_file=\x7b", "(edit_file=\x7b", "(i2c=\x7b",
   "(spi=\x7b"]

/-- Embedding of `isToolCallFormat` (`loop.go` 1291-1318). -/
def isToolCallFormat (content : String) : Bool :=
  if content == "" then false
  else toolCallPatterns.any (fun p => strContains content p)

/-- The publish decision of the main `Run` loop (`loop.go` 519-541): the
response returned by `processMessage` is published verbatim whenever it is
non-empty and the message tool has not already sent in this round.  No
`isToolCallFormat` check occurs on this path. -/
def runPublishes (response : String) (alreadySent : Bool) : Bool :=
  response != "" && !alreadySent

/-! ## The agent turn (`loop.go` 679-826) -/

structure TurnOutput where
  result : Except String String
  state : AgentState
  outbound : List OutboundMessage
  usedLLM : Bool
  summarizeTriggered : Bool
  savedKeys : List String

/-- Continuation of `runAgentLoop` past the cache probe: the quick-response
fast path (`loop.go` 711-749) followed by the LLM path (`loop.go` 751-825).
`savedKeys` records `sessions.Save` calls and `summarizeTriggered` records
whether `maybeSummarize` was invoked with its trigger condition satisfied. -/
def runAgentLoopCore (env : Env) (clock : Clock) (al : AgentConfig) (p : Personality)
    (st : AgentState) (opts : ProcessOptions) (messageType : String) (confidence : Nat)
    (cacheKey : String) : TurnOutput :=
  let quickResponse := quickResponseFor p clock messageType
  if quickResponse != "" && decide (confidence ≥ 85) && messageType != "complex" then
    let cache1 := cacheSet clock.now st.cache cacheKey quickResponse
    let sessions1 :=
      if opts.noHistory then st.sessions
      else addMessage (addMessage st.sessions opts.sessionKey "user" opts.userMessage)
        opts.sessionKey "assistant" quickResponse
    let saved := if opts.noHistory then ([] : List String) else [opts.sessionKey]
    ⟨.ok quickResponse, ⟨sessions1, cache1⟩, [], false, false, saved⟩
  else
    let history := if opts.noHistory then [] else (st.sessions opts.sessionKey).history
    let summary := if opts.noHistory then "" else (st.sessions opts.sessionKey).summary
    let messages := buildMessages history summary opts.userMessage
    let sessions1 :=
      if opts.noHistory then st.sessions
      else addMessage st.sessions opts.sessionKey "user" opts.userMessage
    let iter := runLLMIteration env opts al.maxIterations messages sessions1
    match iter.result with
    | .error e => ⟨.error e, ⟨iter.sessions, st.cache⟩, iter.outbound, iter.usedLLM, false, []⟩
    | .ok content0 =>
      let finalContent := if content0 == "" then opts.defaultResponse else content0
      let sessions2 :=
        if opts.noHistory then iter.sessions
        else addMessage iter.sessions opts.sessionKey "assistant" finalContent
      let saved := if opts.noHistory then ([] : List String) else [opts.sessionKey]
      let summarizeTriggered :=
        if !opts.noHistory && opts.enableSummary then
          maybeSummarizeCondition al (sessions2 opts.sessionKey).history opts.sessionKey
        else false
      let cache2 :=
        if messageType != "complex" && decide (finalContent.utf8ByteSize < 500) then
          cacheSet clock.now st.cache cacheKey finalContent
        else st.cache
      let outbound2 :=
        if opts.sendResponse && !isToolCallFormat finalContent then
          iter.outbound ++ [⟨opts.channel, opts.chatID, finalContent⟩]
        else iter.outbound
      ⟨.ok finalContent, ⟨sessions2, cache2⟩, outbound2, iter.usedLLM, summarizeTriggered, saved⟩

/-- Embedding of `AgentLoop.runAgentLoop` (`loop.go` 681-826).  Step 0
(recording the last channel) touches only the state file, not the session
store or cache, and is omitted.  The cache-hit early return fires only for
non-"complex" intents and mutates nothing. -/
def runAgentLoop (env : Env) (clock : Clock) (al : AgentConfig) (p : Personality)
    (st : AgentState) (opts : ProcessOptions) : TurnOutput :=
  let mt := analyze opts.userMessage
  let cacheKey := mt.1 ++ ":" ++ hashString opts.userMessage
  match cacheGet clock.now st.cache cacheKey with
  | some cached =>
    if mt.1 != "complex" then ⟨.ok cached, st, [], false, false, []⟩
    else runAgentLoopCore env clock al p st opts mt.1 mt.2 cacheKey
  | none => runAgentLoopCore env clock al p st opts mt.1 mt.2 cacheKey

/-! ## Summarizer (`loop.go` 1186-1279)

The LLM is an oracle `chat : String → Option String` from the prompt to
the returned content, `none` standing for a provider error; the Go callers
discard batch errors (`s1, _ := ...`), which `Option.getD ""` mirrors. -/

/-- Embedding of the prompt built by `summarizeBatch` (`loop.go` 1261-1269). -/
def summarizeBatchPrompt (batch : List Msg) (existingSummary : String) : String :=
  let base := "Provide a concise summary of this conversation segment, preserving core context and key points.\n"
  let base1 := if existingSummary != "" then base ++ "Existing context: " ++ existingSummary ++ "\n" else base
  batch.foldl (fun acc m => acc ++ m.role ++ ": " ++ m.content ++ "\n")
    (base1 ++ "\nCONVERSATION:\n")

/-- Embedding of `AgentLoop.summarizeBatch` (`loop.go` 1261-1279). -/
def summarizeBatch (chat : String → Option String) (batch : List Msg)
    (existingSummary : String) : Option String :=
  chat (summarizeBatchPrompt batch existingSummary)

/-- The message filter of `summarizeSession` (`loop.go` 1204-1218):
keep user/assistant messages whose estimated tokens fit in half the
context window; report whether any oversized one was dropped. -/
def filterForSummary (contextWindow : Nat) (toSummarize : List Msg) : List Msg × Bool :=
  toSummarize.foldl
    (fun acc m =>
      if m.role != "user" && m.role != "assistant" then acc
      else if m.content.utf8ByteSize / 4 > contextWindow / 2 then (acc.1, true)
      else (acc.1 ++ [m], acc.2))
    ([], false)

/-- The `finalSummary` computation of `summarizeSession` (`loop.go`
1224-1249), including the split-and-merge branch, the concatenation
fallback when the merge call errors, and the omission note. -/
def computeFinalSummary (chat : String → Option String) (validMessages : List Msg)
    (summary : String) (omitted : Bool) : String :=
  let fs :=
    if validMessages.length > 10 then
      let mid := validMessages.length / 2
      let s1 := (summarizeBatch chat (validMessages.take mid) "").getD ""
      let s2 := (summarizeBatch chat (validMessages.drop mid) "").getD ""
      let mergePrompt := "Merge these two conversation summaries into one cohesive summary:\n\n1: " ++ s1 ++ "\n\n2: " ++ s2
      match chat mergePrompt with
      | some c => c
      | none => s1 ++ " " ++ s2
    else (summarizeBatch chat validMessages summary).getD ""
  if omitted && fs != "" then
    fs ++ "\n[Note: Some oversized messages were omitted from this summary for efficiency.]"
  else fs

/-- Embedding of `AgentLoop.summarizeSession` (`loop.go` 1187-1258) acting
on one session's data.  The summary is stored and the history truncated to
its last four entries only when the final summary text is non-empty. -/
def summarizeSession (chat : String → Option String) (contextWindow : Nat)
    (sessionKey : String) (s : SessionData) : SessionData :=
  if isHeartbeatKey sessionKey then s
  else if s.history.length ≤ 4 then s
  else
    let toSummarize := s.history.take (s.history.length - 4)
    let fr := filterForSummary contextWindow toSummarize
    if fr.1.isEmpty then s
    else
      let finalSummary := computeFinalSummary chat fr.1 s.summary fr.2
      if finalSummary != "" then
        { history := s.history.drop (s.history.length - 4), summary := finalSummary }
      else s

/-! ## Summarization sentinel (`loop.go` 1088-1105)

`maybeSummarize` guards the background job with
`al.summarizing.LoadOrStore(sessionKey, true)` and the job's deferred
`al.summarizing.Delete(sessionKey)`.  Both `sync.Map` operations are
atomic, so any concurrent execution is an interleaving of the two atomic
events modelled here: a trigger (one `maybeSummarize` call, carrying the
history length and token estimate it observed) and a finish (the deferred
delete when the goroutine ends). -/

inductive SummEvent where
  | trigger (key : String) (histLen : Nat) (tokens : Nat)
  | finish (key : String)

structure SummarizerState where
  sentinel : String → Bool
  running : String → Nat

def initSummarizer : SummarizerState :=
  ⟨fun _ => false, fun _ => 0⟩

/-- One atomic step: a trigger starts a summarization (incrementing the
in-flight count) only when the thresholds pass and the sentinel was absent;
a finish clears the sentinel and decrements the count. -/
def summarizerStep (cw : Nat) (st : SummarizerState) : SummEvent → SummarizerState
  | .trigger k histLen tokens =>
    if isHeartbeatKey k then st
    else if histLen > 20 || tokens > cw * 75 / 100 then
      if st.sentinel k then st
      else ⟨fun k2 => if k2 == k then true else st.sentinel k2,
            fun k2 => if k2 == k then st.running k2 + 1 else st.running k2⟩
    else st
  | .finish k =>
    if st.sentinel k then
      ⟨fun k2 => if k2 == k then false else st.sentinel k2,
       fun k2 => if k2 == k then st.running k2 - 1 else st.running k2⟩
    else st

/-- State after an interleaving of trigger/finish events. -/
def summarizerRun (cw : Nat) (events : List SummEvent) : SummarizerState :=
  events.foldl (summarizerStep cw) initSummarizer

/-! ## Database provider (`pkg/database/provider.go` 338-404) -/

structure DBMessage where
  id : String
  role : String
  content : String
  senderID : String
  chatID : String
  channel : String
  timestamp : Nat
  createdAt : Nat
deriving DecidableEq

/-- Insertion into a timestamp-ascending list. -/
def insertByTimestamp (m : DBMessage) : List DBMessage → List DBMessage
  | [] => [m]
  | x :: xs => if m.timestamp ≤ x.timestamp then m :: x :: xs else x :: insertByTimestamp m xs

/-- Rows of the `messages` table in ascending `timestamp` order for a chat,
as produced by `ORDER BY timestamp ASC` (a stable insertion sort). -/
def sortByTimestamp : List DBMessage → List DBMessage
  | [] => []
  | x :: xs => insertByTimestamp x (sortByTimestamp xs)

/-- Embedding of `Provider.GetMessages` (`provider.go` 375-404): a
non-positive limit is coerced to 100, rows are filtered by chat, sorted by
timestamp ascending and truncated by `LIMIT`. -/
def getMessages (db : List DBMessage) (chatID : String) (limit : Int) : List DBMessage :=
  let limit1 : Int := if limit ≤ 0 then 100 else limit
  ((sortByTimestamp (db.filter (fun m => m.chatID == chatID)))).take limit1.toNat

/-- Embedding of `Provider.LoadSession` (`provider.go` 338-340), which
delegates to `GetMessages` with limit 100. -/
def loadSession (db : List DBMessage) (chatID : String) : List DBMessage :=
  getMessages db chatID 100

/-! ## Helper lemmas -/

/-- Appending to a non-empty string keeps it non-empty. -/
theorem append_ne_empty_left {s : String} (t : String) (h : s ≠ "") : s ++ t ≠ "" := by
  intro hc
  apply h
  have hlen := congrArg String.length hc
  rw [String.length_append] at hlen
  have hz : s.length = 0 := by
    have : String.length "" = 0 := rfl
    omega
  cases s with
  | mk d =>
    cases d with
    | nil => rfl
    | cons c cs => simp [String.length] at hz

theorem listHasPrefix_self : ∀ l : List Char, listHasPrefix l l = true
  | [] => rfl
  | c :: cs => by simp [listHasPrefix, listHasPrefix_self cs]

theorem listContainsSub_append_self (s t : List Char) :
    listContainsSub (s ++ t) t = true := by
  induction s with
  | nil =>
    cases t with
    | nil => rfl
    | cons c cs => simp [listContainsSub, listHasPrefix_self]
  | cons c cs ih =>
    simp only [List.cons_append, listContainsSub, Bool.or_eq_true]
    right
    exact ih

/-- A string always contains its own suffix. -/
theorem strContains_append_self (s t : String) : strContains (s ++ t) t = true := by
  have hd : (s ++ t).toList = s.toList ++ t.toList := String.data_append s t
  unfold strContains
  rw [hd]
  exact listContainsSub_append_self _ _

/-! ## Claim C9: the cache never returns an entry older than the TTL -/

/-- C9 (confirmed).  With the constructor's 30-minute TTL, `ResponseCache.Get`
returns a hit only if the stored entry's age is at most the TTL, and any
entry strictly older than the TTL yields a miss. -/
theorem c9_cache_ttl (entries : List (String × CacheEntry)) (now : Nat) (key : String) :
    (∀ v, cacheGet now { newResponseCache with entries := entries } key = some v →
      ∃ e, findEntry entries key = some e ∧ e.response = v ∧ now - e.timestamp ≤ 1800) ∧
    (∀ e, findEntry entries key = some e → now - e.timestamp > 1800 →
      cacheGet now { newResponseCache with entries := entries } key = none) := by
  constructor
  · intro v h
    unfold cacheGet at h
    cases hf : findEntry entries key with
    | none => rw [hf] at h; exact absurd h (by simp)
    | some e =>
      rw [hf] at h
      by_cases hexp : now - e.timestamp > 1800
      · simp only [newResponseCache] at h
        rw [if_pos hexp] at h
        exact absurd h (by simp)
      · refine ⟨e, rfl, ?_, by omega⟩
        simp only [newResponseCache] at h
        rw [if_neg hexp] at h
        exact (Option.some_inj.mp h)
  · intro e hf hexp
    unfold cacheGet
    rw [hf]
    simp only [newResponseCache]
    rw [if_pos hexp]

/-- Witness for C9 at a concrete expired entry (age 2000 > 1800). -/
theorem c9_cache_ttl_witness :
    cacheGet 2000 { newResponseCache with entries := [("k", ⟨"r", 0, 1⟩)] } "k" = none :=
  (c9_cache_ttl [("k", ⟨"r", 0, 1⟩)] 2000 "k").2 ⟨"r", 0, 1⟩ (by decide) (by decide)

/-! ## Claim C10: LoadSession truncates to the 100 earliest messages -/

/-- C10 (confirmed).  `LoadSession` delegates to `GetMessages` with limit
100; any non-positive limit is coerced to 100; the loaded history is the
first 100 rows of the chat's messages sorted by ascending timestamp, hence
at most 100 messages. -/
theorem c10_load_session_limit (db : List DBMessage) (chatID : String) (limit : Int) :
    (loadSession db chatID).length ≤ 100 ∧
    (limit ≤ 0 → getMessages db chatID limit = getMessages db chatID 100) ∧
    loadSession db chatID =
      (sortByTimestamp (db.filter (fun m => m.chatID == chatID))).take 100 := by
  refine ⟨?_, ?_, ?_⟩
  · show (getMessages db chatID 100).length ≤ 100
    unfold getMessages
    norm_num
  · intro h
    unfold getMessages
    rw [if_pos h, if_neg (by norm_num : ¬ (100 : Int) ≤ 0)]
  · rfl

/-- Witness for C10 at a concrete database with a negative limit. -/
theorem c10_load_session_limit_witness :
    (loadSession [⟨"1", "user", "x", "u", "c1", "tg", 5, 5⟩] "c1").length ≤ 100 ∧
    getMessages [⟨"1", "user", "x", "u", "c1", "tg", 5, 5⟩] "c1" (-3) =
      getMessages [⟨"1", "user", "x", "u", "c1", "tg", 5, 5⟩] "c1" 100 :=
  ⟨(c10_load_session_limit [⟨"1", "user", "x", "u", "c1", "tg", 5, 5⟩] "c1" (-3)).1,
   (c10_load_session_limit [⟨"1", "user", "x", "u", "c1", "tg", 5, 5⟩] "c1" (-3)).2.1 (by norm_num)⟩

/-! ## Claim C4: the cache bound can be exceeded -/

/-- One hundred and one `Set` calls with distinct keys at the same instant:
no entry is ever expired, so `cleanup` removes nothing. -/
def cacheAfter101 : ResponseCache :=
  (List.range 101).foldl (fun rc2 i => cacheSet 0 rc2 (toString i) "v") newResponseCache

set_option maxRecDepth 100000 in
/-- C4 (code bug).  After 101 `Set` operations with distinct fresh keys the
cache holds 101 entries although `maxSize` is 100: `Set` calls `cleanup`
when full, but `cleanup` — despite its comment promising to remove expired
or least-used entries — deletes only expired ones, so nothing is evicted
and the insertion pushes the map beyond its bound. -/
theorem c4_cache_bound_violated :
    cacheAfter101.entries.length = 101 ∧ cacheAfter101.maxSize = 100 := by
  constructor <;> rfl

/-! ## Claim C1: tool-call-format content reaches the user via Run -/

/-- The empty session store. -/
def emptySessions : String → SessionData := fun _ => ⟨[], ""⟩

/-- An agent configuration matching `start.sh` (`max_tokens` 8192,
`max_tool_iterations` 20). -/
def defaultConfig : AgentConfig := ⟨8192, 20⟩

def c1Clock : Clock := ⟨12, 0, 0, 1, 1, 2026, 4, 0⟩

/-- A provider whose final answer is in the internal tool-call format. -/
def c1Env : Env :=
  { chat := fun _ => [Except.ok ⟨"(message=\x7b\x22content\x22:\x22hi\x22\x7d)", []⟩],
    execTool := fun _ _ => ⟨"", "", false, none⟩ }

/-- The options `processMessage` builds for a user message
(`loop.go` 621-629): `SendResponse` is false, so the only publish path for
the final content is the `Run` loop. -/
def c1Opts : ProcessOptions :=
  ⟨"telegram:c1", "telegram", "c1", "please run the tool",
   "I've completed processing but have no response to give.", true, false, false⟩

/-- C1 (code bug).  A turn driven through `processMessage` returns a final
content in the internal tool-call format; `isToolCallFormat` recognises it,
yet the main `Run` loop (`loop.go` 519-541) publishes any non-empty
response unguarded — its decision checks only emptiness and the
message-tool duplicate flag — so the content is sent to the user,
contradicting the leak guard the spec requires on every publish path. -/
theorem c1_tool_call_leak :
    (runAgentLoop c1Env c1Clock defaultConfig newPersonality ⟨emptySessions, newResponseCache⟩ c1Opts).result =
      .ok "(message=\x7b\x22content\x22:\x22hi\x22\x7d)" ∧
    isToolCallFormat "(message=\x7b\x22content\x22:\x22hi\x22\x7d)" = true ∧
    runPublishes "(message=\x7b\x22content\x22:\x22hi\x22\x7d)" false = true := by
  refine ⟨rfl, by decide, by decide⟩

/-! ## Claim C2: a cache hit returns the cached response but appends nothing -/

def c2Cache : ResponseCache :=
  { newResponseCache with entries := [("greeting:oi", ⟨"cached-reply", 0, 1⟩)] }

def c2Clock : Clock := ⟨12, 0, 0, 1, 1, 2026, 4, 100⟩

def c2Env : Env :=
  { chat := fun _ => [Except.ok ⟨"llm-reply", []⟩],
    execTool := fun _ _ => ⟨"", "", false, none⟩ }

def c2Opts : ProcessOptions :=
  ⟨"s1", "telegram", "c1", "oi",
   "I've completed processing but have no response to give.", true, false, false⟩

/-- Counterexample to C2 as stated: with `no_history` unset and a fresh
cache entry for `greeting:oi`, the turn returns the cached response but the
session history stays empty — the pair (user message, cached response) is
never appended, because the cache-hit early return (`loop.go` 706-709)
performs no history write. -/
theorem c2_counterexample :
    (runAgentLoop c2Env c2Clock defaultConfig newPersonality ⟨emptySessions, c2Cache⟩ c2Opts).result =
      .ok "cached-reply" ∧
    c2Opts.noHistory = false ∧
    ((runAgentLoop c2Env c2Clock defaultConfig newPersonality ⟨emptySessions, c2Cache⟩ c2Opts).state.sessions "s1").history = [] ∧
    ((runAgentLoop c2Env c2Clock defaultConfig newPersonality ⟨emptySessions, c2Cache⟩ c2Opts).state.sessions "s1").history ≠
      [mkMsg "user" "oi", mkMsg "assistant" "cached-reply"] := by
  refine ⟨rfl, rfl, rfl, by decide⟩

/-- C2 (amended).  On a non-expired cache hit with non-"complex" intent the
turn returns the cached response, but it leaves the entire agent state —
session store included — untouched, publishes nothing, and calls no LLM:
no (user, cached) pair is appended to history even when `no_history` is
unset. -/
theorem c2_cache_hit_amended (env : Env) (clock : Clock) (al : AgentConfig)
    (p : Personality) (st : AgentState) (opts : ProcessOptions) (v : String)
    (hhit : cacheGet clock.now st.cache
      ((analyze opts.userMessage).1 ++ ":" ++ hashString opts.userMessage) = some v)
    (hnc : (analyze opts.userMessage).1 ≠ "complex") :
    runAgentLoop env clock al p st opts = ⟨.ok v, st, [], false, false, []⟩ := by
  unfold runAgentLoop
  dsimp only
  rw [hhit]
  dsimp only
  rw [if_pos (bne_iff_ne.mpr hnc)]

/-- Witness for C2's amended theorem at the concrete cache-hit state. -/
theorem c2_cache_hit_amended_witness :
    runAgentLoop c2Env c2Clock defaultConfig newPersonality ⟨emptySessions, c2Cache⟩ c2Opts =
      ⟨.ok "cached-reply", ⟨emptySessions, c2Cache⟩, [], false, false, []⟩ :=
  c2_cache_hit_amended c2Env c2Clock defaultConfig newPersonality
    ⟨emptySessions, c2Cache⟩ c2Opts "cached-reply" (by decide) (by decide)

/-! ## Claim C3: the personality fast path -/

/-- The intents handled by the quick-response switch (`loop.go` 713-730);
the catalog intent `time_greeting` is absent. -/
def handledIntents : List String :=
  ["greeting", "farewell", "gratitude", "how_are_you", "who_are_you",
   "time_request", "date_request", "help_request"]

theorem pick3_ne {a b c : String} (n : Nat) (ha : a ≠ "") (hb : b ≠ "") (hc : c ≠ "") :
    pick3 a b c n ≠ "" := by
  unfold pick3
  split <;> assumption

theorem generateGreeting_ne (p : Personality) (c : Clock) : generateGreeting p c ≠ "" := by
  unfold generateGreeting
  dsimp only
  split_ifs <;> first | decide | (apply pick3_ne (c.sec) <;> decide)

theorem generateFarewell_ne (p : Personality) (c : Clock) : generateFarewell p c ≠ "" := by
  unfold generateFarewell
  split_ifs <;> first | decide | (apply pick3_ne (c.sec) <;> decide)

theorem generateGratitudeResponse_ne (p : Personality) (c : Clock) :
    generateGratitudeResponse p c ≠ "" := by
  unfold generateGratitudeResponse
  split_ifs <;> first | decide | (apply pick3_ne (c.sec) <;> decide)

theorem generateHowAreYouResponse_ne (p : Personality) : generateHowAreYouResponse p ≠ "" := by
  unfold generateHowAreYouResponse
  split_ifs <;> decide

theorem generateWhoAreYouResponse_ne (p : Personality) : generateWhoAreYouResponse p ≠ "" := by
  unfold generateWhoAreYouResponse
  split_ifs <;> (repeat apply append_ne_empty_left) <;> decide

theorem generateTimeResponse_ne (p : Personality) (c : Clock) :
    generateTimeResponse p c ≠ "" := by
  unfold generateTimeResponse
  dsimp only
  split_ifs <;> (repeat apply append_ne_empty_left) <;> decide

theorem generateDateResponse_ne (p : Personality) (c : Clock) :
    generateDateResponse p c ≠ "" := by
  unfold generateDateResponse
  dsimp only
  split_ifs <;> (repeat apply append_ne_empty_left) <;> decide

theorem generateHelpResponse_ne (p : Personality) : generateHelpResponse p ≠ "" := by
  unfold generateHelpResponse
  split_ifs <;> decide

/-- Every intent in the quick-response switch has a personality generator
producing a non-empty string, for every personality and clock. -/
theorem quickResponseFor_ne (p : Personality) (c : Clock) (it : String)
    (h : it ∈ handledIntents) : quickResponseFor p c it ≠ "" := by
  fin_cases h
  · exact generateGreeting_ne p c
  · exact generateFarewell_ne p c
  · exact generateGratitudeResponse_ne p c
  · exact generateHowAreYouResponse_ne p
  · exact generateWhoAreYouResponse_ne p
  · exact generateTimeResponse_ne p c
  · exact generateDateResponse_ne p c
  · exact generateHelpResponse_ne p

theorem findMatcher_conf (ms : List PatternMatcher) (msg : String)
    (hms : ∀ m ∈ ms, m.confidence ≥ 85) (h : (findMatcher ms msg).1 ≠ "complex") :
    (findMatcher ms msg).2 ≥ 85 := by
  induction ms with
  | nil => exact absurd rfl h
  | cons m rest ih =>
    unfold findMatcher at h ⊢
    by_cases hm : m.matchFn msg
    · rw [if_pos hm]
      exact hms m (List.mem_cons_self m rest)
    · rw [if_neg hm] at h ⊢
      exact ih (fun m2 hm2 => hms m2 (List.mem_cons_of_mem m hm2)) h

/-- Every non-"complex" classification carries a catalog confidence of at
least 0.85 (85 scaled). -/
theorem analyze_conf_ge (msg : String) (h : (analyze msg).1 ≠ "complex") :
    (analyze msg).2 ≥ 85 :=
  findMatcher_conf patternMatchers msg (by decide) h

def c3Env : Env :=
  { chat := fun _ => [Except.ok ⟨"llm-time-greeting-reply", []⟩],
    execTool := fun _ _ => ⟨"", "", false, none⟩ }

def c3Opts : ProcessOptions :=
  ⟨"s1", "telegram", "c1", "bom dia",
   "I've completed processing but have no response to give.", true, false, false⟩

/-- Counterexample to C3 as stated: `time_greeting` is a catalog intent
classified at confidence 0.95, yet the quick-response switch has no case
for it and `NewReasoningEngine` registers no quick response under that key,
so a "bom dia" message is not answered by any personality generator — the
turn proceeds to the LLM path. -/
theorem c3_counterexample :
    analyze "bom dia" = ("time_greeting", 95) ∧
    quickResponseFor newPersonality c1Clock "time_greeting" = "" ∧
    (runAgentLoop c3Env c1Clock defaultConfig newPersonality
      ⟨emptySessions, newResponseCache⟩ c3Opts).usedLLM = true ∧
    (runAgentLoop c3Env c1Clock defaultConfig newPersonality
      ⟨emptySessions, newResponseCache⟩ c3Opts).result = .ok "llm-time-greeting-reply" := by
  exact ⟨by decide, rfl, rfl, rfl⟩

/-- C3 (amended).  For every catalog intent except `time_greeting` — those
in `handledIntents` — a message classified with that intent at its catalog
confidence (all at least 0.85) and missing the cache is answered on the
fast path by the personality generator for that intent, without any LLM
call; each such generator produces non-empty text.  `time_greeting` has no
generator and such messages fall through to the LLM path. -/
theorem c3_fast_path_amended (env : Env) (clock : Clock) (al : AgentConfig)
    (p : Personality) (st : AgentState) (opts : ProcessOptions)
    (hint : (analyze opts.userMessage).1 ∈ handledIntents)
    (hmiss : cacheGet clock.now st.cache
      ((analyze opts.userMessage).1 ++ ":" ++ hashString opts.userMessage) = none) :
    (runAgentLoop env clock al p st opts).result =
      .ok (quickResponseFor p clock (analyze opts.userMessage).1) ∧
    (runAgentLoop env clock al p st opts).usedLLM = false ∧
    quickResponseFor p clock (analyze opts.userMessage).1 ≠ "" := by
  have hne : quickResponseFor p clock (analyze opts.userMessage).1 ≠ "" :=
    quickResponseFor_ne p clock _ hint
  have hnc : (analyze opts.userMessage).1 ≠ "complex" := by
    intro hc
    rw [hc] at hint
    exact absurd hint (by decide)
  have hconf : (analyze opts.userMessage).2 ≥ 85 := analyze_conf_ge _ hnc
  have hrun : runAgentLoop env clock al p st opts =
      runAgentLoopCore env clock al p st opts (analyze opts.userMessage).1
        (analyze opts.userMessage).2
        ((analyze opts.userMessage).1 ++ ":" ++ hashString opts.userMessage) := by
    unfold runAgentLoop
    dsimp only
    rw [hmiss]
  rw [hrun]
  unfold runAgentLoopCore
  dsimp only
  rw [if_pos (by simp [Bool.and_eq_true, bne_iff_ne, hne, hnc, hconf])]
  exact ⟨rfl, rfl, hne⟩

def c3WitnessOpts : ProcessOptions :=
  ⟨"s1", "telegram", "c1", "valeu",
   "I've completed processing but have no response to give.", true, false, false⟩

/-- Witness for C3's amended theorem: a gratitude message on an empty
cache. -/
theorem c3_fast_path_amended_witness :
    (runAgentLoop c3Env c1Clock defaultConfig newPersonality
      ⟨emptySessions, newResponseCache⟩ c3WitnessOpts).result =
      .ok (quickResponseFor newPersonality c1Clock (analyze "valeu").1) ∧
    (runAgentLoop c3Env c1Clock defaultConfig newPersonality
      ⟨emptySessions, newResponseCache⟩ c3WitnessOpts).usedLLM = false ∧
    quickResponseFor newPersonality c1Clock (analyze "valeu").1 ≠ "" :=
  c3_fast_path_amended c3Env c1Clock defaultConfig newPersonality
    ⟨emptySessions, newResponseCache⟩ c3WitnessOpts (by decide) (by decide)

/-! ## Claim C5: the summarization round-trip -/

/-- The final summary text `summarizeSession` computes for a session
(the value of `finalSummary` at `loop.go` 1251, omission note included). -/
def sessionFinalSummary (chat : String → Option String) (cw : Nat) (s : SessionData) : String :=
  let fr := filterForSummary cw (s.history.take (s.history.length - 4))
  computeFinalSummary chat fr.1 s.summary fr.2

def c5Chat : String → Option String := fun _ => some ""

def c5Session : SessionData :=
  ⟨[mkMsg "user" "a1", mkMsg "assistant" "b1", mkMsg "user" "c1",
    mkMsg "assistant" "d1", mkMsg "user" "e1", mkMsg "assistant" "f1"], ""⟩

/-- Counterexample to C5 as stated: a six-entry session with a non-empty
filtered list whose summarizer LLM returns empty content.  The claim
requires the history to end with exactly 4 entries; the code leaves the
session untouched (6 entries) because the `finalSummary != ""` guard
(`loop.go` 1251) skips both the summary store and the truncation. -/
theorem c5_counterexample :
    c5Session.history.length = 6 ∧
    (filterForSummary 8192 (c5Session.history.take (c5Session.history.length - 4))).1 ≠ [] ∧
    summarizeSession c5Chat 8192 "s1" c5Session = c5Session ∧
    (summarizeSession c5Chat 8192 "s1" c5Session).history.length ≠ 4 := by
  exact ⟨rfl, by decide, rfl, by decide⟩

/-- C5 (amended).  After `summarizeSession` on a non-heartbeat session with
more than 4 entries and a non-empty filtered list: when the computed final
summary text is non-empty the history is truncated to exactly 4 entries
and that text becomes the stored summary; when it is empty the session is
left entirely unchanged (history length stays above 4 and the old summary
stays in place). -/
theorem c5_summarize_amended (chat : String → Option String) (cw : Nat) (key : String)
    (s : SessionData)
    (hk : isHeartbeatKey key = false)
    (hlen : s.history.length > 4)
    (hvalid : (filterForSummary cw (s.history.take (s.history.length - 4))).1 ≠ []) :
    (sessionFinalSummary chat cw s ≠ "" →
      (summarizeSession chat cw key s).history.length = 4 ∧
      (summarizeSession chat cw key s).summary = sessionFinalSummary chat cw s) ∧
    (sessionFinalSummary chat cw s = "" → summarizeSession chat cw key s = s) := by
  have h1 : ¬ (isHeartbeatKey key = true) := by rw [hk]; exact Bool.false_ne_true
  have h2 : ¬ (s.history.length ≤ 4) := by omega
  have h3 : ¬ ((filterForSummary cw (s.history.take (s.history.length - 4))).1.isEmpty = true) := by
    intro hc
    exact hvalid (List.isEmpty_iff.mp hc)
  unfold summarizeSession sessionFinalSummary
  rw [if_neg h1, if_neg h2]
  dsimp only
  rw [if_neg h3]
  constructor
  · intro hfs
    rw [if_pos (bne_iff_ne.mpr hfs)]
    refine ⟨?_, rfl⟩
    dsimp only
    rw [List.length_drop]
    omega
  · intro hfs
    rw [if_neg (by simp [hfs])]

def c5WitnessChat : String → Option String := fun _ => some "the summary"

/-- Witness for C5's amended theorem: the same six-entry session with a
summarizer returning non-empty content. -/
theorem c5_summarize_amended_witness :
    (summarizeSession c5WitnessChat 8192 "s1" c5Session).history.length = 4 ∧
    (summarizeSession c5WitnessChat 8192 "s1" c5Session).summary =
      sessionFinalSummary c5WitnessChat 8192 c5Session :=
  (c5_summarize_amended c5WitnessChat 8192 "s1" c5Session (by decide) (by decide)
    (by decide)).1 (by decide)

/-! ## Claim C6: provider failover -/

theorem tryChat_error_cons (e : String) (y : Except String LLMResponse)
    (ys : List (Except String LLMResponse)) :
    tryChat (.error e :: y :: ys) = tryChat (y :: ys) := rfl

theorem tryChat_ok_head (resp : LLMResponse) (post : List (Except String LLMResponse)) :
    tryChat (.ok resp :: post) = some (.ok resp) := by
  cases post <;> rfl

/-- C6 (confirmed).  Providers are tried in list order: (1) the first
success determines the outcome whatever lies after it; (2) when every
provider errors and the chain is non-empty, the outcome is the last
provider's error; (3) an error outcome only arises when every provider in
the chain errored; (4) in that case the iteration surfaces
"LLM call failed: " followed by the last provider's message, a string that
contains that message. -/
theorem c6_failover :
    (∀ (pre post : List (Except String LLMResponse)) (resp : LLMResponse),
       (∀ r ∈ pre, ∃ e, r = .error e) →
       tryChat (pre ++ .ok resp :: post) = some (.ok resp)) ∧
    (∀ (results : List (Except String LLMResponse)) (e : String),
       (∀ r ∈ results, ∃ e2, r = .error e2) →
       results.getLast? = some (.error e) →
       tryChat results = some (.error e)) ∧
    (∀ (results : List (Except String LLMResponse)) (e : String),
       tryChat results = some (.error e) → ∀ r ∈ results, ∃ e2, r = .error e2) ∧
    (∀ (env : Env) (opts : ProcessOptions) (fuel : Nat) (messages : List Msg)
       (sessions : String → SessionData) (outbound : List OutboundMessage)
       (used : Bool) (e : String),
       tryChat (env.chat messages) = some (.error e) →
       (runLLMIterationAux env opts (fuel + 1) messages sessions outbound used).result =
         .error ("LLM call failed: " ++ e) ∧
       strContains ("LLM call failed: " ++ e) e = true) := by
  refine ⟨?_, ?_, ?_, ?_⟩
  · intro pre post resp hpre
    induction pre with
    | nil => exact tryChat_ok_head resp post
    | cons x xs ih =>
      obtain ⟨e, he⟩ := hpre x (List.mem_cons_self x xs)
      subst he
      have hih := ih (fun r hr => hpre r (List.mem_cons_of_mem _ hr))
      have hcons : ∃ y ys, xs ++ Except.ok resp :: post = y :: ys := by
        cases xs with
        | nil => exact ⟨_, _, rfl⟩
        | cons a as => exact ⟨_, _, rfl⟩
      obtain ⟨y, ys, hy⟩ := hcons
      rw [List.cons_append, hy, tryChat_error_cons, ← hy]
      exact hih
  · intro results
    induction results with
    | nil => intro e _ hlast; exact absurd hlast (by simp)
    | cons r rs ih =>
      intro e hall hlast
      cases rs with
      | nil =>
        obtain ⟨e2, he2⟩ := hall r (List.mem_cons_self r [])
        subst he2
        rw [List.getLast?_singleton] at hlast
        rw [show tryChat [Except.error (α := LLMResponse) e2] = some (.error e2) from rfl]
        exact hlast
      | cons r2 rs2 =>
        obtain ⟨e2, he2⟩ := hall r (List.mem_cons_self r (r2 :: rs2))
        subst he2
        rw [tryChat_error_cons]
        refine ih e (fun r3 hr3 => hall r3 (List.mem_cons_of_mem _ hr3)) ?_
        rw [← hlast]
        exact List.getLast?_cons_cons.symm
  · intro results
    induction results with
    | nil => intro e h; exact absurd h (by simp [tryChat])
    | cons r rs ih =>
      intro e h r2 hr2
      cases rs with
      | nil =>
        cases r with
        | ok v => exact absurd h (by rw [tryChat_ok_head]; simp)
        | error e0 =>
          rcases List.mem_singleton.mp hr2 with h2
          exact ⟨e0, by rw [h2]⟩
      | cons r3 rs3 =>
        cases r with
        | ok v => exact absurd h (by rw [tryChat_ok_head]; simp)
        | error e0 =>
          rw [tryChat_error_cons] at h
          rcases List.mem_cons.mp hr2 with h2 | h2
          · exact ⟨e0, h2⟩
          · exact ih e h r2 h2
  · intro env opts fuel messages sessions outbound used e h
    constructor
    · unfold runLLMIterationAux
      rw [h]
    · exact strContains_append_self "LLM call failed: " e

/-- Witness for C6 at two concrete chains: failure then success, and two
failures. -/
theorem c6_failover_witness :
    tryChat [.error "errA", .ok ⟨"okB", []⟩, .error "errC"] = some (.ok ⟨"okB", []⟩) ∧
    tryChat [.error "errA", .error "errB"] = some (.error "errB") := by
  constructor
  · exact c6_failover.1 [.error "errA"] [.error "errC"] ⟨"okB", []⟩
      (fun r hr => ⟨"errA", List.mem_singleton.mp hr⟩)
  · exact c6_failover.2.1 [.error "errA", .error "errB"] "errB"
      (fun r hr => by
        rcases List.mem_cons.mp hr with h | h
        · exact ⟨"errA", h⟩
        · exact ⟨"errB", List.mem_singleton.mp h⟩)
      (by rfl)

/-! ## Claim C7: no_history turns leave session state unchanged -/

theorem execToolCalls_sessions_noHistory (env : Env) (opts : ProcessOptions)
    (h : opts.noHistory = true) :
    ∀ (tcs : List LLMToolCall) (messages : List Msg) (sessions : String → SessionData)
      (outbound : List OutboundMessage),
      (execToolCalls env opts tcs messages sessions outbound).2.1 = sessions := by
  intro tcs
  induction tcs with
  | nil => intro _ _ _; rfl
  | cons tc rest ih =>
    intro messages sessions outbound
    simp only [execToolCalls]
    rw [if_pos h]
    exact ih _ _ _

theorem runLLMIterationAux_sessions_noHistory (env : Env) (opts : ProcessOptions)
    (h : opts.noHistory = true) :
    ∀ (fuel : Nat) (messages : List Msg) (sessions : String → SessionData)
      (outbound : List OutboundMessage) (used : Bool),
      (runLLMIterationAux env opts fuel messages sessions outbound used).sessions = sessions := by
  intro fuel
  induction fuel with
  | zero => intro _ _ _ _; rfl
  | succ n ih =>
    intro messages sessions outbound used
    simp only [runLLMIterationAux]
    cases htc : tryChat (env.chat messages) with
    | none => rfl
    | some r =>
      cases r with
      | error e => rfl
      | ok resp =>
        dsimp only
        by_cases hemp : resp.toolCalls.isEmpty = true
        · rw [if_pos hemp]
        · rw [if_neg hemp]
          rw [if_pos h, ih]
          exact execToolCalls_sessions_noHistory env opts h _ _ _ _

theorem runLLMIteration_sessions_noHistory (env : Env) (opts : ProcessOptions)
    (h : opts.noHistory = true) (maxIterations : Nat) (messages : List Msg)
    (sessions : String → SessionData) :
    (runLLMIteration env opts maxIterations messages sessions).sessions = sessions :=
  runLLMIterationAux_sessions_noHistory env opts h maxIterations messages sessions [] false

theorem runAgentLoopCore_noHistory (env : Env) (clock : Clock) (al : AgentConfig)
    (p : Personality) (st : AgentState) (opts : ProcessOptions) (mt : String) (conf : Nat)
    (key : String) (h : opts.noHistory = true) :
    (runAgentLoopCore env clock al p st opts mt conf key).state.sessions = st.sessions ∧
    (runAgentLoopCore env clock al p st opts mt conf key).savedKeys = [] ∧
    (runAgentLoopCore env clock al p st opts mt conf key).summarizeTriggered = false := by
  simp only [runAgentLoopCore]
  by_cases hq : (quickResponseFor p clock mt != "" && decide (conf ≥ 85) && mt != "complex") = true
  · rw [if_pos hq]
    rw [if_pos h, if_pos h]
    exact ⟨rfl, rfl, rfl⟩
  · rw [if_neg hq]
    rw [if_pos h, if_pos h, if_pos h]
    have hsess := runLLMIteration_sessions_noHistory env opts h al.maxIterations
      (buildMessages [] "" opts.userMessage) st.sessions
    cases hres : (runLLMIteration env opts al.maxIterations
        (buildMessages [] "" opts.userMessage) st.sessions).result with
    | error e =>
      dsimp only
      exact ⟨hsess, rfl, rfl⟩
    | ok content0 =>
      dsimp only
      rw [if_pos h, if_pos h]
      refine ⟨hsess, rfl, ?_⟩
      rw [h]
      simp

/-- C7 (confirmed).  Every turn with `no_history = true` leaves the session
store untouched: the resulting session map is the input one, no
`sessions.Save` call is recorded, and `maybeSummarize` is never triggered,
on the cache-hit path, the personality fast path, the LLM/tool-iteration
path and the provider-failure path alike. -/
theorem c7_no_history_frame (env : Env) (clock : Clock) (al : AgentConfig) (p : Personality)
    (st : AgentState) (opts : ProcessOptions) (h : opts.noHistory = true) :
    (runAgentLoop env clock al p st opts).state.sessions = st.sessions ∧
    (runAgentLoop env clock al p st opts).savedKeys = [] ∧
    (runAgentLoop env clock al p st opts).summarizeTriggered = false := by
  unfold runAgentLoop
  dsimp only
  cases hc : cacheGet clock.now st.cache
      ((analyze opts.userMessage).1 ++ ":" ++ hashString opts.userMessage) with
  | none => exact runAgentLoopCore_noHistory env clock al p st opts _ _ _ h
  | some v =>
    dsimp only
    by_cases hnc : ((analyze opts.userMessage).1 != "complex") = true
    · rw [if_pos hnc]
      exact ⟨rfl, rfl, rfl⟩
    · rw [if_neg hnc]
      exact runAgentLoopCore_noHistory env clock al p st opts _ _ _ h

/-- Options of a heartbeat turn (`ProcessHeartbeat`, `loop.go` 586-597). -/
def c7Opts : ProcessOptions :=
  ⟨"heartbeat:123", "telegram", "c1", "status check",
   "I've completed processing but have no response to give.", false, false, true⟩

/-- Witness for C7 at a concrete heartbeat turn. -/
theorem c7_no_history_frame_witness :
    (runAgentLoop c3Env c1Clock defaultConfig newPersonality
      ⟨emptySessions, newResponseCache⟩ c7Opts).state.sessions = emptySessions ∧
    (runAgentLoop c3Env c1Clock defaultConfig newPersonality
      ⟨emptySessions, newResponseCache⟩ c7Opts).savedKeys = [] ∧
    (runAgentLoop c3Env c1Clock defaultConfig newPersonality
      ⟨emptySessions, newResponseCache⟩ c7Opts).summarizeTriggered = false :=
  c7_no_history_frame c3Env c1Clock defaultConfig newPersonality
    ⟨emptySessions, newResponseCache⟩ c7Opts rfl

/-! ## Claim C8: at most one summarization in flight per session -/

/-- The coupling invariant: a session's in-flight count is 1 exactly when
its sentinel is present, 0 otherwise. -/
def summInv (st : SummarizerState) : Prop :=
  ∀ k, st.running k = if st.sentinel k then 1 else 0

theorem summInv_init : summInv initSummarizer := fun _ => rfl

theorem summInv_step (cw : Nat) (st : SummarizerState) (e : SummEvent) (h : summInv st) :
    summInv (summarizerStep cw st e) := by
  cases e with
  | trigger k hl tok =>
    simp only [summarizerStep]
    by_cases h1 : isHeartbeatKey k = true
    · rw [if_pos h1]; exact h
    · rw [if_neg h1]
      by_cases h2 : (hl > 20 || tok > cw * 75 / 100) = true
      · rw [if_pos h2]
        by_cases h3 : st.sentinel k = true
        · rw [if_pos h3]; exact h
        · rw [if_neg h3]
          have hsf : st.sentinel k = false := by revert h3; cases st.sentinel k <;> simp
          intro k2
          dsimp only
          by_cases hk2 : (k2 == k) = true
          · rw [if_pos hk2, if_pos hk2]
            have hkk : k2 = k := by simpa using hk2
            have h0 := h k2
            rw [hkk, hsf] at h0
            simp at h0
            rw [hkk, h0]
            decide
          · rw [if_neg hk2, if_neg hk2]
            exact h k2
      · rw [if_neg h2]; exact h
  | finish k =>
    simp only [summarizerStep]
    by_cases h1 : st.sentinel k = true
    · rw [if_pos h1]
      intro k2
      dsimp only
      by_cases hk2 : (k2 == k) = true
      · rw [if_pos hk2, if_pos hk2]
        have hkk : k2 = k := by simpa using hk2
        have h0 := h k2
        rw [hkk, h1] at h0
        simp at h0
        rw [hkk, h0]
        decide
      · rw [if_neg hk2, if_neg hk2]
        exact h k2
    · rw [if_neg h1]; exact h

theorem summInv_run (cw : Nat) (events : List SummEvent) : summInv (summarizerRun cw events) := by
  unfold summarizerRun
  have gen : ∀ (evs : List SummEvent) (st : SummarizerState), summInv st →
      summInv (evs.foldl (summarizerStep cw) st) := by
    intro evs
    induction evs with
    | nil => intro st hst; exact hst
    | cons e rest ih =>
      intro st hst
      exact ih _ (summInv_step cw st e hst)
  exact gen events initSummarizer summInv_init

/-- C8 (confirmed).  Under any interleaving of atomic trigger and finish
events, each session key has at most one summarization in flight; and
while the sentinel for a key is set, a further trigger for that key is a
no-op (the state is unchanged) until the in-flight summarization clears the
sentinel. -/
theorem c8_at_most_one_summarization (cw : Nat) (events : List SummEvent) (k : String) :
    (summarizerRun cw events).running k ≤ 1 ∧
    (∀ (st : SummarizerState) (histLen tokens : Nat), st.sentinel k = true →
      summarizerStep cw st (.trigger k histLen tokens) = st) := by
  constructor
  · have h := summInv_run cw events k
    rw [h]
    split <;> omega
  · intro st hl tok hs
    simp only [summarizerStep]
    by_cases h1 : isHeartbeatKey k = true
    · rw [if_pos h1]
    · rw [if_neg h1]
      by_cases h2 : (hl > 20 || tok > cw * 75 / 100) = true
      · rw [if_pos h2, if_pos hs]
      · rw [if_neg h2]

/-- Witness for C8: two immediate triggers for the same session; the count
stays at one and the second trigger is a no-op. -/
theorem c8_at_most_one_summarization_witness :
    (summarizerRun 8192 [.trigger "s1" 25 0, .trigger "s1" 25 0]).running "s1" ≤ 1 ∧
    summarizerStep 8192 (summarizerRun 8192 [.trigger "s1" 25 0]) (.trigger "s1" 30 0) =
      summarizerRun 8192 [.trigger "s1" 25 0] :=
  ⟨(c8_at_most_one_summarization 8192 [.trigger "s1" 25 0, .trigger "s1" 25 0] "s1").1,
   (c8_at_most_one_summarization 8192 [.trigger "s1" 25 0] "s1").2
     (summarizerRun 8192 [.trigger "s1" 25 0]) 30 0 (by decide)⟩

end PicoClaw
